import Mathlib

/-!
# monitor_state.c : state polling and transition detection

A shallow embedding of `src/monitor_state.c`.

* A C `char` is a natural number (its byte value); a C string is the list of
  its bytes, the terminating NUL being the end of the list.
* `struct Monitor_` is the structure `Monitor`.  The function pointer
  `on_system_state_change` is an optional function acting on a world `W`
  (whatever the callback has an effect on); `NULL` is `none`.
* What the environment does during a call (the D-Bus round trip, `nanosleep`,
  `fopen`) is an explicit argument of the function that makes the call.
-/

namespace MonitorState

/-! ## Constants (`#define`s of the source) -/

/-- Value of `LED_BLUE`. -/
def LED_BLUE : Nat := 0
/-- Value of `LED_RED`. -/
def LED_RED : Nat := 1
/-- Value of `LED_GREEN`. -/
def LED_GREEN : Nat := 2
/-- Value of `LED_PURPLE`. -/
def LED_PURPLE : Nat := 3

/-- Bytes of a string literal of the source (ASCII), without the final NUL. -/
def cstr (s : String) : List Nat := s.toList.map Char.toNat

/-- Value of `SYSTEM_STATE_UNKNOWN_STR`. -/
def SYSTEM_STATE_UNKNOWN_STR : List Nat := cstr "unknown"
/-- Value of `SYSTEM_STATE_UNKNOWN`, the character u. -/
def SYSTEM_STATE_UNKNOWN : Nat := 'u'.toNat

/-- Value of `SYSTEM_STATE_STARTING_STR`. -/
def SYSTEM_STATE_STARTING_STR : List Nat := cstr "starting"
/-- Value of `SYSTEM_STATE_STARTING`, the character s. -/
def SYSTEM_STATE_STARTING : Nat := 's'.toNat

/-- Value of `SYSTEM_STATE_RUNNING_STR`. -/
def SYSTEM_STATE_RUNNING_STR : List Nat := cstr "running"
/-- Value of `SYSTEM_STATE_RUNNING`, the character r. -/
def SYSTEM_STATE_RUNNING : Nat := 'r'.toNat

/-- Value of `SYSTEM_STATE_MAINTENANCE_STR`. -/
def SYSTEM_STATE_MAINTENANCE_STR : List Nat := cstr "maintenance"
/-- Value of `SYSTEM_STATE_MAINTENANCE`, the character m. -/
def SYSTEM_STATE_MAINTENANCE : Nat := 'm'.toNat

/-- Value of `SYSTEM_STATE_DEGRADED_STR`. -/
def SYSTEM_STATE_DEGRADED_STR : List Nat := cstr "degraded"
/-- Value of `SYSTEM_STATE_DEGRADED`, the character d. -/
def SYSTEM_STATE_DEGRADED : Nat := 'd'.toNat

/-- Value of `SYSTEM_STATE_STOPPING_STR`. -/
def SYSTEM_STATE_STOPPING_STR : List Nat := cstr "stopping"
/-- Value of `SYSTEM_STATE_STOPPING`, the character t. -/
def SYSTEM_STATE_STOPPING : Nat := 't'.toNat

/-- Value of `SYSTEM_STATE_SIZE`. -/
def SYSTEM_STATE_SIZE : Nat := 12

/-! ## The C library functions the source calls on its buffer -/

/-- The `n` bytes that `strncpy(dest, src, n)` writes: the bytes of `src` up to
its first NUL (the end of the list is a NUL too), at most `n` of them, and NUL
bytes after them up to `n`.  No NUL is written when `src` has `n` bytes or more
before its NUL. -/
def strncpy_bytes : List Nat → Nat → List Nat
  | _, 0 => []
  | [], n + 1 => 0 :: strncpy_bytes [] n
  | c :: cs, n + 1 => if c = 0 then 0 :: strncpy_bytes [] n else c :: strncpy_bytes cs n

/-- The array `dest` after `strncpy(dest, src, n)`: its first `n` bytes are
overwritten, the others stay. -/
def strncpy (dest src : List Nat) (n : Nat) : List Nat :=
  strncpy_bytes src n ++ dest.drop n

/-- The array `dest` after `memset(dest, c, n)`. -/
def memset (dest : List Nat) (c n : Nat) : List Nat :=
  List.replicate n c ++ dest.drop n

/-- The result of `strncmp(s1, s2, n)`: the difference of the first pair of
bytes that differ among the first `n`, `0` when there is none before a NUL or
before `n` bytes are compared.  A byte read at the end of a list is the NUL
that ends a string literal. -/
def strncmp : List Nat → List Nat → Nat → Int
  | _, _, 0 => 0
  | s1, s2, n + 1 =>
    let c1 := s1.headD 0
    let c2 := s2.headD 0
    if c1 ≠ c2 then (c1 : Int) - (c2 : Int)
    else if c1 = 0 then 0
    else strncmp s1.tail s2.tail n

/-! ## The monitor -/

/-- The `struct Monitor_` of the source. -/
structure Monitor (W : Type) where
  /-- The field `char system_state_str[SYSTEM_STATE_SIZE]`. -/
  system_state_str : List Nat
  /-- The field `char system_state`. -/
  system_state : Nat
  /-- The field `char system_state_old`. -/
  system_state_old : Nat
  /-- The field `void (*on_system_state_change)(char, char)`, `none` for `NULL`. -/
  on_system_state_change : Option (Nat → Nat → W → W)

/-- The function `monitor_new` when `malloc` succeeds: the object is zeroed,
then the text and the two states are set to their defaults. -/
def monitor_new (W : Type) : Monitor W :=
  let monitor : Monitor W :=
    { system_state_str := List.replicate SYSTEM_STATE_SIZE 0
      system_state := 0
      system_state_old := 0
      on_system_state_change := none }
  let monitor := { monitor with
    system_state_str :=
      strncpy monitor.system_state_str SYSTEM_STATE_UNKNOWN_STR SYSTEM_STATE_SIZE }
  let monitor := { monitor with system_state := SYSTEM_STATE_UNKNOWN }
  { monitor with system_state_old := SYSTEM_STATE_UNKNOWN }

/-- The function `monitor_register_on_system_state_change_cb`. -/
def monitor_register_on_system_state_change_cb {W : Type} (monitor : Monitor W)
    (on_system_state_change : Option (Nat → Nat → W → W)) : Monitor W :=
  { monitor with on_system_state_change := on_system_state_change }

/-- The function `_monitor_parse_system_state`: a switch on the first byte of
the text, then `strncmp` against the labels that start with that byte. -/
def _monitor_parse_system_state {W : Type} (monitor : Monitor W) : Monitor W :=
  let c0 := monitor.system_state_str.headD 0
  if c0 = 's'.toNat then
    if strncmp monitor.system_state_str SYSTEM_STATE_STARTING_STR SYSTEM_STATE_SIZE = 0 then
      { monitor with system_state := SYSTEM_STATE_STARTING }
    else if strncmp monitor.system_state_str SYSTEM_STATE_STOPPING_STR SYSTEM_STATE_SIZE = 0 then
      { monitor with system_state := SYSTEM_STATE_STOPPING }
    else
      { monitor with system_state := SYSTEM_STATE_UNKNOWN }
  else if c0 = 'r'.toNat then
    if strncmp monitor.system_state_str SYSTEM_STATE_RUNNING_STR SYSTEM_STATE_SIZE = 0 then
      { monitor with system_state := SYSTEM_STATE_RUNNING }
    else
      { monitor with system_state := SYSTEM_STATE_UNKNOWN }
  else if c0 = 'm'.toNat then
    if strncmp monitor.system_state_str SYSTEM_STATE_MAINTENANCE_STR SYSTEM_STATE_SIZE = 0 then
      { monitor with system_state := SYSTEM_STATE_MAINTENANCE }
    else
      { monitor with system_state := SYSTEM_STATE_UNKNOWN }
  else if c0 = 'd'.toNat then
    if strncmp monitor.system_state_str SYSTEM_STATE_DEGRADED_STR SYSTEM_STATE_SIZE = 0 then
      { monitor with system_state := SYSTEM_STATE_DEGRADED }
    else
      { monitor with system_state := SYSTEM_STATE_UNKNOWN }
  else
    { monitor with system_state := SYSTEM_STATE_UNKNOWN }

/-! ## The status fetcher -/

/-- An argument of a D-Bus message, as far as the source looks at it: a
string with its bytes, a variant with the value it wraps, or a value of
another type. -/
inductive DBusArg where
  | string (bytes : List Nat)
  | variant (content : DBusArg)
  | other

/-- What the D-Bus library answers during one call of
`_monitor_update_system_state_str`. -/
structure DBusCall where
  /-- Whether `dbus_bus_get` returns a connection (no error is set). -/
  bus : Bool
  /-- Whether `dbus_message_new_method_call` returns a message (not `NULL`). -/
  msg : Bool
  /-- Whether `dbus_message_append_args` returns `TRUE`. -/
  args : Bool
  /-- The result of `dbus_connection_send_with_reply_and_block`: `none` for
  `NULL`, or the arguments of the reply message. -/
  reply : Option (List DBusArg)

/-- The function `_monitor_update_system_state_str`: the new monitor and the
`int` returned.  The text is zeroed first; the chain of checks follows the
source, each `goto error_*` being a return of `-1`.  The messages printed on
`stderr` and the release of the D-Bus objects have no effect on the monitor and
are left out. -/
def _monitor_update_system_state_str {W : Type} (dbus : DBusCall) (monitor : Monitor W) :
    Monitor W × Int :=
  let monitor := { monitor with
    system_state_str := memset monitor.system_state_str 0 SYSTEM_STATE_SIZE }
  if !dbus.bus then (monitor, -1)
  else if !dbus.msg then (monitor, -1)
  else if !dbus.args then (monitor, -1)
  else
    match dbus.reply with
    | none => (monitor, -1)
    | some [] => (monitor, -1)
    | some (DBusArg.variant (DBusArg.string system_state_str) :: _) =>
      ({ monitor with
          system_state_str :=
            strncpy monitor.system_state_str system_state_str SYSTEM_STATE_SIZE }, 0)
    | some (DBusArg.variant _ :: _) => (monitor, -1)
    | some (_ :: _) => (monitor, -1)

/-- The function `monitor_update_system_state`: the new monitor and the `int`
returned. -/
def monitor_update_system_state {W : Type} (dbus : DBusCall) (monitor : Monitor W) :
    Monitor W × Int :=
  let monitor := { monitor with system_state_old := monitor.system_state }
  let (monitor, rval) := _monitor_update_system_state_str dbus monitor
  let monitor :=
    if rval ≠ 0 then
      { monitor with
        system_state_str :=
          strncpy monitor.system_state_str SYSTEM_STATE_UNKNOWN_STR SYSTEM_STATE_SIZE }
    else monitor
  let monitor := _monitor_parse_system_state monitor
  (monitor, rval)

/-- A round trip that succeeds: the reply has one argument, a variant that
wraps the string `label`. -/
def fetch_ok (label : List Nat) : DBusCall :=
  { bus := true, msg := true, args := true
    reply := some [DBusArg.variant (DBusArg.string label)] }

/-- A round trip that fails for want of a reply (a timeout for instance). -/
def fetch_no_reply : DBusCall :=
  { bus := true, msg := true, args := true, reply := none }

/-- The five labels that the parser knows. -/
def known_labels : List (List Nat) :=
  [SYSTEM_STATE_STARTING_STR, SYSTEM_STATE_RUNNING_STR, SYSTEM_STATE_MAINTENANCE_STR,
   SYSTEM_STATE_DEGRADED_STR, SYSTEM_STATE_STOPPING_STR]


/-- The monitor once a fetched string is stored in its text, as the success
path of `_monitor_update_system_state_str` does: `memset` of the text to zero,
then `strncpy` of the string. -/
def store_label {W : Type} (monitor : Monitor W) (label : List Nat) : Monitor W :=
  { monitor with
    system_state_str :=
      strncpy (memset monitor.system_state_str 0 SYSTEM_STATE_SIZE) label SYSTEM_STATE_SIZE }

/-! ## The polling loop -/

/-- Value of `EINTR` in `errno.h` (Linux). -/
def EINTR : Nat := 4

/-- What the environment does during one iteration of the loop of
`monitor_run`. -/
structure Tick where
  /-- The D-Bus round trip of the iteration. -/
  dbus : DBusCall
  /-- The value that `nanosleep` returns. -/
  nanosleep : Int
  /-- The value of `errno` after `nanosleep`. -/
  errno : Nat

/-- The body of the loop of `monitor_run` before `nanosleep`: the update, the
comparison of the two states and the call of the callback. -/
def monitor_run_dispatch {W : Type} (dbus : DBusCall) (monitor : Monitor W) (world : W) :
    Monitor W × W :=
  let monitor := (monitor_update_system_state dbus monitor).1
  if monitor.system_state ≠ monitor.system_state_old then
    match monitor.on_system_state_change with
    | some on_system_state_change =>
      (monitor, on_system_state_change monitor.system_state monitor.system_state_old world)
    | none => (monitor, world)
  else (monitor, world)

/-- The function `monitor_run` on the iterations that `ticks` describes: the
monitor and the world when the loop is left by `break`, or after the last
iteration described (the loop of the source has no other exit). -/
def monitor_run {W : Type} : List Tick → Monitor W → W → Monitor W × W
  | [], monitor, world => (monitor, world)
  | tick :: ticks, monitor, world =>
    let (monitor, world) := monitor_run_dispatch tick.dbus monitor world
    if tick.nanosleep ≠ 0 then
      if tick.errno = EINTR then (monitor, world)
      else monitor_run ticks monitor world
    else monitor_run ticks monitor world

/-- The monitor and the world at the end of each iteration that `monitor_run`
executes, in order. -/
def monitor_run_trace {W : Type} : List Tick → Monitor W → W → List (Monitor W × W)
  | [], _, _ => []
  | tick :: ticks, monitor, world =>
    let (monitor, world) := monitor_run_dispatch tick.dbus monitor world
    if tick.nanosleep ≠ 0 then
      if tick.errno = EINTR then [(monitor, world)]
      else (monitor, world) :: monitor_run_trace ticks monitor world
    else (monitor, world) :: monitor_run_trace ticks monitor world

/-- A callback that records its arguments: the world is the list of the calls
made so far. -/
def record_call (system_state system_state_old : Nat) (calls : List (Nat × Nat)) :
    List (Nat × Nat) :=
  calls ++ [(system_state, system_state_old)]

/-- An iteration whose round trip returns `label` and whose sleep is complete. -/
def tick_label (label : String) : Tick :=
  { dbus := fetch_ok (cstr label), nanosleep := 0, errno := 0 }

/-! ## The indicator -/

/-- A call of the C library on the colour file of the indicator. -/
inductive FileOp where
  | fopen
  | fprintf (value : Nat)
  | fclose
  deriving DecidableEq

/-- The colour file `LED_COLOR_PATH` as `on_system_state_change` sees it. -/
structure Led where
  /-- Whether `fopen` of the file for writing succeeds. -/
  fopen_ok : Bool
  /-- The calls made on the file so far. -/
  ops : List FileOp
  deriving DecidableEq

/-- The function `on_system_state_change`: `fopen`, a switch on `system_state`
that prints one colour or nothing, `fclose`.  Nothing is done when `fopen`
returns `NULL`.  The value printed with the format `%u` is kept as a number. -/
def on_system_state_change (system_state system_state_old : Nat) (led : Led) : Led :=
  if !led.fopen_ok then led
  else
    let led := { led with ops := led.ops ++ [FileOp.fopen] }
    let led :=
      if system_state = SYSTEM_STATE_STARTING ∨ system_state = SYSTEM_STATE_STOPPING then
        { led with ops := led.ops ++ [FileOp.fprintf LED_PURPLE] }
      else if system_state = SYSTEM_STATE_DEGRADED ∨ system_state = SYSTEM_STATE_MAINTENANCE then
        { led with ops := led.ops ++ [FileOp.fprintf LED_RED] }
      else if system_state = SYSTEM_STATE_RUNNING then
        { led with ops := led.ops ++ [FileOp.fprintf LED_BLUE] }
      else led
    { led with ops := led.ops ++ [FileOp.fclose] }

/-- The values written to the colour file so far. -/
def Led.written (led : Led) : List Nat :=
  led.ops.filterMap fun op =>
    match op with
    | FileOp.fprintf value => some value
    | _ => none

/-- The number of places of a list of states at which a state differs from
the one before it. -/
def transitions : List Nat → Nat
  | a :: b :: rest => (if a ≠ b then 1 else 0) + transitions (b :: rest)
  | _ => 0

/-- Whether the recording callback bound to a new monitor is called during
iteration `k` (counted from 1) of `monitor_run` on `ticks`: whether the list of
the calls is longer at the end of that iteration than at its start. -/
def callback_fires (ticks : List Tick) (k : Nat) : Bool :=
  let lengths := 0 :: (monitor_run_trace ticks
    (monitor_register_on_system_state_change_cb (monitor_new (List (Nat × Nat)))
      (some record_call)) []).map fun p => p.2.length
  match k with
  | 0 => false
  | k + 1 => decide (lengths.getD k 0 < lengths.getD (k + 1) 0)

/-- The six fetches of the scenario of the specification. -/
def scenario_ticks : List Tick :=
  ["unknown", "starting", "starting", "running", "degraded", "unknown"].map tick_label

/-- The monitor at the end of one iteration that fetches "running", from a new
monitor with the recording callback bound: its state is Running. -/
def monitor_running : Monitor (List (Nat × Nat)) :=
  (monitor_run [tick_label "running"]
    (monitor_register_on_system_state_change_cb (monitor_new (List (Nat × Nat)))
      (some record_call)) []).1

/-- The monitor at the end of one iteration whose fetch fails, from a new
monitor with the recording callback bound: its state is Unknown. -/
def monitor_failed : Monitor (List (Nat × Nat)) :=
  (monitor_run [{ dbus := fetch_no_reply, nanosleep := 0, errno := 0 }]
    (monitor_register_on_system_state_change_cb (monitor_new (List (Nat × Nat)))
      (some record_call)) []).1

/-! ## The D-Bus objects of the fetcher -/

/-- The D-Bus objects that `_monitor_update_system_state_str` holds: the
connection `bus`, the outgoing message `msg` and the message `reply`. -/
inductive DBusRes where
  | bus
  | msg
  | reply
  deriving DecidableEq

/-- A call that gives the fetcher a reference to an object (`dbus_bus_get`,
`dbus_message_new_method_call`, `dbus_connection_send_with_reply_and_block`
when they return an object) or that drops it (`dbus_connection_unref`,
`dbus_message_unref`). -/
inductive DBusOp where
  | get (res : DBusRes)
  | unref (res : DBusRes)
  deriving DecidableEq

/-- The code from the label `error_bus` to the `return -1`. -/
def error_bus (ops : List DBusOp) : Int × List DBusOp :=
  (-1, ops)

/-- The code from the label `error_msg`: the connection is dropped, then the
code of `error_bus` follows. -/
def error_msg (ops : List DBusOp) : Int × List DBusOp :=
  error_bus (ops ++ [DBusOp.unref DBusRes.bus])

/-- The code from the label `error_args`: the message is dropped, then the
code of `error_msg` follows. -/
def error_args (ops : List DBusOp) : Int × List DBusOp :=
  error_msg (ops ++ [DBusOp.unref DBusRes.msg])

/-- The code from the label `error_reply`: the reply is dropped, then the code
of `error_args` follows. -/
def error_reply (ops : List DBusOp) : Int × List DBusOp :=
  error_args (ops ++ [DBusOp.unref DBusRes.reply])

/-- The function `_monitor_update_system_state_str` as to its D-Bus objects:
the `int` returned and the calls, in order, that give or drop a reference.  A
call that returns no object (an error, `NULL`) gives none. -/
def _monitor_update_system_state_str_ops (dbus : DBusCall) : Int × List DBusOp :=
  if !dbus.bus then error_bus []
  else
    let ops := [DBusOp.get DBusRes.bus]
    if !dbus.msg then error_msg ops
    else
      let ops := ops ++ [DBusOp.get DBusRes.msg]
      if !dbus.args then error_args ops
      else
        match dbus.reply with
        | none => error_args ops
        | some args =>
          let ops := ops ++ [DBusOp.get DBusRes.reply]
          match args with
          | [] => error_reply ops
          | DBusArg.variant (DBusArg.string _) :: _ =>
            (0, ops ++ [DBusOp.unref DBusRes.reply, DBusOp.unref DBusRes.msg,
              DBusOp.unref DBusRes.bus])
          | DBusArg.variant _ :: _ => error_reply ops
          | _ :: _ => error_reply ops

/-! ## Auxiliary definitions of the statements -/

/-- The six state codes of the source: Unknown, Starting, Running,
Maintenance, Degraded, Stopping. -/
def canonical_states : List Nat :=
  [SYSTEM_STATE_UNKNOWN, SYSTEM_STATE_STARTING, SYSTEM_STATE_RUNNING,
   SYSTEM_STATE_MAINTENANCE, SYSTEM_STATE_DEGRADED, SYSTEM_STATE_STOPPING]

/-- The update and the dispatch of each of `ticks` in turn, whatever the
results of the sleeps. -/
def dispatch_all {W : Type} (ticks : List Tick) (monitor : Monitor W) (world : W) :
    Monitor W × W :=
  ticks.foldl (fun (s : Monitor W × W) (tick : Tick) =>
    monitor_run_dispatch tick.dbus s.1 s.2) (monitor, world)

/-- The monitor after a call of `monitor_update_system_state` for each of
`calls` in turn. -/
def update_all {W : Type} (calls : List DBusCall) (monitor : Monitor W) : Monitor W :=
  calls.foldl (fun (m : Monitor W) (dbus : DBusCall) =>
    (monitor_update_system_state dbus m).1) monitor

/-! ## Facts about `strncpy` and `strncmp` -/

theorem strncmp_strncpy_bytes (n : Nat) :
    ∀ (s l rest : List Nat), (∀ b ∈ s, b ≠ 0) → (∀ b ∈ l, b ≠ 0) → l.length < n →
      strncmp (strncpy_bytes s n ++ rest) l n = 0 → s = l := by
  induction n with
  | zero => intro s l rest _ _ hlen; exact absurd hlen (Nat.not_lt_zero _)
  | succ n ih =>
    intro s l rest hs hl hlen h
    cases s with
    | nil =>
      cases l with
      | nil => rfl
      | cons c cs =>
        have hc : c ≠ 0 := hl c (List.mem_cons_self _ _)
        simp [strncpy_bytes, strncmp, Ne.symm hc] at h
        omega
    | cons a as =>
      have ha : a ≠ 0 := hs a (List.mem_cons_self _ _)
      cases l with
      | nil =>
        simp [strncpy_bytes, strncmp, ha] at h
      | cons c cs =>
        have hc : c ≠ 0 := hl c (List.mem_cons_self _ _)
        simp only [strncpy_bytes, ha, if_false, List.cons_append, strncmp, List.headD_cons,
          List.tail_cons] at h
        by_cases hac : a = c
        · subst hac
          simp [ha] at h
          have := ih as cs rest (fun b hb => hs b (List.mem_cons_of_mem _ hb))
            (fun b hb => hl b (List.mem_cons_of_mem _ hb))
            (by simpa using hlen) h
          rw [this]
        · simp [hac] at h
          omega

/-! ## The parser -/

theorem known_labels_nul_free : ∀ l ∈ known_labels, (∀ b ∈ l, b ≠ 0) ∧ l.length < SYSTEM_STATE_SIZE := by
  decide

theorem parse_strncpy_bytes_unknown {W : Type} (monitor : Monitor W) (label rest : List Nat)
    (hnul : ∀ b ∈ label, b ≠ 0) (hnot : label ∉ known_labels) :
    (_monitor_parse_system_state { monitor with
      system_state_str := strncpy_bytes label SYSTEM_STATE_SIZE ++ rest }).system_state
      = SYSTEM_STATE_UNKNOWN := by
  have key : ∀ l ∈ known_labels,
      strncmp (strncpy_bytes label SYSTEM_STATE_SIZE ++ rest) l SYSTEM_STATE_SIZE ≠ 0 := by
    intro l hl h
    have hl2 := known_labels_nul_free l hl
    exact hnot (strncmp_strncpy_bytes _ label l rest hnul hl2.1 hl2.2 h ▸ hl)
  have k1 := key SYSTEM_STATE_STARTING_STR (by simp [known_labels])
  have k2 := key SYSTEM_STATE_RUNNING_STR (by simp [known_labels])
  have k3 := key SYSTEM_STATE_MAINTENANCE_STR (by simp [known_labels])
  have k4 := key SYSTEM_STATE_DEGRADED_STR (by simp [known_labels])
  have k5 := key SYSTEM_STATE_STOPPING_STR (by simp [known_labels])
  unfold _monitor_parse_system_state
  simp only [k1, k2, k3, k4, k5, if_false]
  split_ifs <;> rfl

theorem update_fetch_ok {W : Type} (monitor : Monitor W) (label : List Nat) :
    monitor_update_system_state (fetch_ok label) monitor
      = (_monitor_parse_system_state
          (store_label { monitor with system_state_old := monitor.system_state } label), 0) := by
  rfl

/-- C1: a string returned by a successful fetch that has no NUL byte and is
none of the five known labels leaves `system_state` at Unknown, both when
`monitor_update_system_state` runs on that fetch and when the parser runs on
the text in which the string was stored; the string may be empty, longer than
the text, a prefix or a case variant of a label. -/
theorem C1_unknown_label_parses_to_unknown {W : Type} (monitor : Monitor W) (label : List Nat)
    (hnul : ∀ b ∈ label, b ≠ 0) (hnot : label ∉ known_labels) :
    (monitor_update_system_state (fetch_ok label) monitor).1.system_state = SYSTEM_STATE_UNKNOWN
    ∧ (_monitor_parse_system_state (store_label monitor label)).system_state
        = SYSTEM_STATE_UNKNOWN := by
  constructor
  · rw [update_fetch_ok]
    have := parse_strncpy_bytes_unknown
      (store_label { monitor with system_state_old := monitor.system_state } label) label
      (monitor.system_state_str.drop SYSTEM_STATE_SIZE) hnul hnot
    simpa [store_label, strncpy, memset, SYSTEM_STATE_SIZE, List.drop_append_eq_append_drop]
      using this
  · have := parse_strncpy_bytes_unknown (store_label monitor label) label
      (monitor.system_state_str.drop SYSTEM_STATE_SIZE) hnul hnot
    simpa [store_label, strncpy, memset, SYSTEM_STATE_SIZE, List.drop_append_eq_append_drop]
      using this

/-- Witness of C1 at the empty string, the case variant "Running", the prefix
"start" of a label and "maintenanceX", which is longer than the text and
whose first eleven bytes are a label. -/
theorem C1_unknown_label_parses_to_unknown_witness :
    ((monitor_update_system_state (fetch_ok []) (monitor_new Unit)).1.system_state
        = SYSTEM_STATE_UNKNOWN
      ∧ (_monitor_parse_system_state (store_label (monitor_new Unit) [])).system_state
        = SYSTEM_STATE_UNKNOWN)
    ∧ ((monitor_update_system_state (fetch_ok (cstr "Running"))
          (monitor_new Unit)).1.system_state = SYSTEM_STATE_UNKNOWN
      ∧ (_monitor_parse_system_state
          (store_label (monitor_new Unit) (cstr "Running"))).system_state
        = SYSTEM_STATE_UNKNOWN)
    ∧ ((monitor_update_system_state (fetch_ok (cstr "start"))
          (monitor_new Unit)).1.system_state = SYSTEM_STATE_UNKNOWN
      ∧ (_monitor_parse_system_state
          (store_label (monitor_new Unit) (cstr "start"))).system_state
        = SYSTEM_STATE_UNKNOWN)
    ∧ ((monitor_update_system_state (fetch_ok (cstr "maintenanceX"))
          (monitor_new Unit)).1.system_state = SYSTEM_STATE_UNKNOWN
      ∧ (_monitor_parse_system_state
          (store_label (monitor_new Unit) (cstr "maintenanceX"))).system_state
        = SYSTEM_STATE_UNKNOWN) :=
  ⟨C1_unknown_label_parses_to_unknown (monitor_new Unit) [] (by decide) (by decide),
   C1_unknown_label_parses_to_unknown (monitor_new Unit) (cstr "Running") (by decide) (by decide),
   C1_unknown_label_parses_to_unknown (monitor_new Unit) (cstr "start") (by decide) (by decide),
   C1_unknown_label_parses_to_unknown (monitor_new Unit) (cstr "maintenanceX") (by decide)
     (by decide)⟩

theorem parse_starting {W : Type} (monitor : Monitor W) :
    (_monitor_parse_system_state (store_label monitor SYSTEM_STATE_STARTING_STR)).system_state
      = SYSTEM_STATE_STARTING := rfl

theorem parse_running {W : Type} (monitor : Monitor W) :
    (_monitor_parse_system_state (store_label monitor SYSTEM_STATE_RUNNING_STR)).system_state
      = SYSTEM_STATE_RUNNING := rfl

theorem parse_maintenance {W : Type} (monitor : Monitor W) :
    (_monitor_parse_system_state (store_label monitor SYSTEM_STATE_MAINTENANCE_STR)).system_state
      = SYSTEM_STATE_MAINTENANCE := rfl

theorem parse_degraded {W : Type} (monitor : Monitor W) :
    (_monitor_parse_system_state (store_label monitor SYSTEM_STATE_DEGRADED_STR)).system_state
      = SYSTEM_STATE_DEGRADED := rfl

theorem parse_stopping {W : Type} (monitor : Monitor W) :
    (_monitor_parse_system_state (store_label monitor SYSTEM_STATE_STOPPING_STR)).system_state
      = SYSTEM_STATE_STOPPING := rfl

/-- C2: on a text that holds one of the five known labels the parser yields
the state of that label (starting s, running r, maintenance m, degraded d,
stopping t); for two known labels `l1` and `l2` the state is never Unknown, and
equal states come from equal labels only. -/
theorem C2_known_labels_parse {W : Type} (monitor : Monitor W) (l1 l2 : List Nat)
    (h1 : l1 ∈ known_labels) (h2 : l2 ∈ known_labels) :
    (_monitor_parse_system_state (store_label monitor (cstr "starting"))).system_state
        = 's'.toNat
    ∧ (_monitor_parse_system_state (store_label monitor (cstr "running"))).system_state
        = 'r'.toNat
    ∧ (_monitor_parse_system_state (store_label monitor (cstr "maintenance"))).system_state
        = 'm'.toNat
    ∧ (_monitor_parse_system_state (store_label monitor (cstr "degraded"))).system_state
        = 'd'.toNat
    ∧ (_monitor_parse_system_state (store_label monitor (cstr "stopping"))).system_state
        = 't'.toNat
    ∧ (_monitor_parse_system_state (store_label monitor l1)).system_state
        ≠ SYSTEM_STATE_UNKNOWN
    ∧ ((_monitor_parse_system_state (store_label monitor l1)).system_state
        = (_monitor_parse_system_state (store_label monitor l2)).system_state → l1 = l2) := by
  refine ⟨rfl, rfl, rfl, rfl, rfl, ?_, ?_⟩
  · simp only [known_labels, List.mem_cons, List.mem_singleton, List.not_mem_nil, or_false] at h1
    rcases h1 with rfl | rfl | rfl | rfl | rfl
    · rw [parse_starting]; decide
    · rw [parse_running]; decide
    · rw [parse_maintenance]; decide
    · rw [parse_degraded]; decide
    · rw [parse_stopping]; decide
  · simp only [known_labels, List.mem_cons, List.mem_singleton, List.not_mem_nil, or_false]
      at h1 h2
    rcases h1 with rfl | rfl | rfl | rfl | rfl <;> rcases h2 with rfl | rfl | rfl | rfl | rfl <;>
      first
      | (intro _; rfl)
      | (intro h
         simp only [parse_starting, parse_running, parse_maintenance, parse_degraded,
           parse_stopping] at h
         exact absurd h (by decide))

/-- Witness of C2 at the labels "starting" and "stopping", which share their
first byte. -/
theorem C2_known_labels_parse_witness :
    (_monitor_parse_system_state
        (store_label (monitor_new Unit) (cstr "starting"))).system_state = 's'.toNat
    ∧ (_monitor_parse_system_state
        (store_label (monitor_new Unit) (cstr "running"))).system_state = 'r'.toNat
    ∧ (_monitor_parse_system_state
        (store_label (monitor_new Unit) (cstr "maintenance"))).system_state = 'm'.toNat
    ∧ (_monitor_parse_system_state
        (store_label (monitor_new Unit) (cstr "degraded"))).system_state = 'd'.toNat
    ∧ (_monitor_parse_system_state
        (store_label (monitor_new Unit) (cstr "stopping"))).system_state = 't'.toNat
    ∧ (_monitor_parse_system_state
        (store_label (monitor_new Unit) (cstr "starting"))).system_state ≠ SYSTEM_STATE_UNKNOWN
    ∧ ((_monitor_parse_system_state
          (store_label (monitor_new Unit) (cstr "starting"))).system_state
        = (_monitor_parse_system_state
          (store_label (monitor_new Unit) (cstr "stopping"))).system_state
        → cstr "starting" = cstr "stopping") :=
  C2_known_labels_parse (monitor_new Unit) (cstr "starting") (cstr "stopping")
    (by decide) (by decide)

/-! ## The fetcher and the update -/

theorem fetch_fields {W : Type} (dbus : DBusCall) (monitor : Monitor W) :
    (_monitor_update_system_state_str dbus monitor).1.system_state = monitor.system_state
    ∧ (_monitor_update_system_state_str dbus monitor).1.system_state_old
        = monitor.system_state_old
    ∧ (_monitor_update_system_state_str dbus monitor).1.on_system_state_change
        = monitor.on_system_state_change := by
  unfold _monitor_update_system_state_str
  split_ifs <;> try exact ⟨rfl, rfl, rfl⟩
  split <;> exact ⟨rfl, rfl, rfl⟩

theorem fetch_rval {W : Type} (dbus : DBusCall) (monitor : Monitor W) :
    (_monitor_update_system_state_str dbus monitor).2 = 0
    ∨ ((_monitor_update_system_state_str dbus monitor).2 = -1
      ∧ (_monitor_update_system_state_str dbus monitor).1.system_state_str
          = memset monitor.system_state_str 0 SYSTEM_STATE_SIZE) := by
  unfold _monitor_update_system_state_str
  split_ifs <;> try exact Or.inr ⟨rfl, rfl⟩
  split <;> first | exact Or.inr ⟨rfl, rfl⟩ | exact Or.inl rfl

theorem parse_fields {W : Type} (monitor : Monitor W) :
    (_monitor_parse_system_state monitor).system_state_str = monitor.system_state_str
    ∧ (_monitor_parse_system_state monitor).system_state_old = monitor.system_state_old
    ∧ (_monitor_parse_system_state monitor).on_system_state_change
        = monitor.on_system_state_change := by
  simp only [_monitor_parse_system_state]
  split_ifs <;> exact ⟨rfl, rfl, rfl⟩

theorem fetch_rval_indep {W : Type} (dbus : DBusCall) (m1 m2 : Monitor W) :
    (_monitor_update_system_state_str dbus m1).2
      = (_monitor_update_system_state_str dbus m2).2 := by
  unfold _monitor_update_system_state_str
  split_ifs <;> try rfl
  split <;> rfl

theorem update_rval {W : Type} (dbus : DBusCall) (monitor : Monitor W) :
    (monitor_update_system_state dbus monitor).2
      = (_monitor_update_system_state_str dbus monitor).2 := by
  simp only [monitor_update_system_state]
  exact fetch_rval_indep dbus _ _

theorem update_old {W : Type} (dbus : DBusCall) (monitor : Monitor W) :
    (monitor_update_system_state dbus monitor).1.system_state_old = monitor.system_state := by
  simp only [monitor_update_system_state]
  rw [(parse_fields _).2.1]
  split_ifs
  · exact (fetch_fields dbus _).2.1
  · exact (fetch_fields dbus _).2.1

theorem update_cb {W : Type} (dbus : DBusCall) (monitor : Monitor W) :
    (monitor_update_system_state dbus monitor).1.on_system_state_change
      = monitor.on_system_state_change := by
  simp only [monitor_update_system_state]
  rw [(parse_fields _).2.2]
  split_ifs
  · exact (fetch_fields dbus _).2.2
  · exact (fetch_fields dbus _).2.2

theorem fetch_register {W : Type} (dbus : DBusCall) (monitor : Monitor W)
    (cb : Option (Nat → Nat → W → W)) :
    _monitor_update_system_state_str dbus { monitor with on_system_state_change := cb }
      = ({ (_monitor_update_system_state_str dbus monitor).1 with on_system_state_change := cb },
          (_monitor_update_system_state_str dbus monitor).2) := by
  unfold _monitor_update_system_state_str
  split_ifs <;> try rfl
  split <;> rfl

theorem parse_register {W : Type} (monitor : Monitor W) (cb : Option (Nat → Nat → W → W)) :
    _monitor_parse_system_state { monitor with on_system_state_change := cb }
      = { _monitor_parse_system_state monitor with on_system_state_change := cb } := by
  simp only [_monitor_parse_system_state]
  split_ifs <;> rfl

theorem update_register {W : Type} (dbus : DBusCall) (monitor : Monitor W)
    (cb : Option (Nat → Nat → W → W)) :
    (monitor_update_system_state dbus
        (monitor_register_on_system_state_change_cb monitor cb)).1
      = { (monitor_update_system_state dbus monitor).1 with on_system_state_change := cb } := by
  simp only [monitor_update_system_state, monitor_register_on_system_state_change_cb]
  have h := fetch_register dbus { monitor with system_state_old := monitor.system_state } cb
  simp only [h]
  split_ifs
  · exact parse_register ⟨_, _, _, _⟩ cb
  · exact parse_register _ cb

theorem update_failed {W : Type} (dbus : DBusCall) (monitor : Monitor W)
    (h : (_monitor_update_system_state_str dbus monitor).2 ≠ 0) :
    (monitor_update_system_state dbus monitor).1.system_state_str
        = strncpy_bytes SYSTEM_STATE_UNKNOWN_STR SYSTEM_STATE_SIZE
          ++ monitor.system_state_str.drop SYSTEM_STATE_SIZE
    ∧ (monitor_update_system_state dbus monitor).1.system_state = SYSTEM_STATE_UNKNOWN := by
  have h1 : (_monitor_update_system_state_str dbus
      { monitor with system_state_old := monitor.system_state }).2 ≠ 0 := by
    rwa [fetch_rval_indep dbus _ monitor]
  have h2 : (_monitor_update_system_state_str dbus
      { monitor with system_state_old := monitor.system_state }).1.system_state_str
        = memset monitor.system_state_str 0 SYSTEM_STATE_SIZE := by
    rcases fetch_rval dbus { monitor with system_state_old := monitor.system_state } with h0 | h0
    · exact absurd h0 h1
    · exact h0.2
  have h3 : strncpy (memset monitor.system_state_str 0 SYSTEM_STATE_SIZE)
      SYSTEM_STATE_UNKNOWN_STR SYSTEM_STATE_SIZE
        = strncpy_bytes SYSTEM_STATE_UNKNOWN_STR SYSTEM_STATE_SIZE
          ++ monitor.system_state_str.drop SYSTEM_STATE_SIZE := by
    simp [strncpy, memset, SYSTEM_STATE_SIZE, List.drop_append_eq_append_drop]
  simp only [monitor_update_system_state]
  rw [if_pos h1]
  constructor
  · rw [(parse_fields _).1]
    simp only [h2, h3]
  · simp only [h2, h3]
    exact parse_strncpy_bytes_unknown _ SYSTEM_STATE_UNKNOWN_STR _ (by decide) (by decide)

/-! ## The loop -/

theorem dispatch_fst {W : Type} (dbus : DBusCall) (monitor : Monitor W) (world : W) :
    (monitor_run_dispatch dbus monitor world).1 = (monitor_update_system_state dbus monitor).1 := by
  simp only [monitor_run_dispatch]
  split_ifs
  · split <;> rfl
  · rfl

theorem dispatch_snd_some {W : Type} (dbus : DBusCall) (monitor : Monitor W) (world : W)
    (f : Nat → Nat → W → W) (hcb : monitor.on_system_state_change = some f) :
    (monitor_run_dispatch dbus monitor world).2
      = if (monitor_update_system_state dbus monitor).1.system_state ≠ monitor.system_state
        then f (monitor_update_system_state dbus monitor).1.system_state monitor.system_state world
        else world := by
  have hcb2 := (update_cb dbus monitor).trans hcb
  simp only [monitor_run_dispatch, update_old, hcb2]
  split_ifs <;> rfl

theorem dispatch_snd_none {W : Type} (dbus : DBusCall) (monitor : Monitor W) (world : W)
    (hcb : monitor.on_system_state_change = none) :
    (monitor_run_dispatch dbus monitor world).2 = world := by
  have hcb2 := (update_cb dbus monitor).trans hcb
  simp only [monitor_run_dispatch, hcb2]
  split_ifs <;> rfl

theorem trace_old {W : Type} (ticks : List Tick) :
    ∀ (monitor : Monitor W) (world : W),
      (monitor_run_trace ticks monitor world).map (fun p => p.1.system_state_old)
        = (monitor.system_state
            :: (monitor_run_trace ticks monitor world).map (fun p => p.1.system_state)).dropLast := by
  induction ticks with
  | nil => intro monitor world; rfl
  | cons tick ticks ih =>
    intro monitor world
    have hold : (monitor_run_dispatch tick.dbus monitor world).1.system_state_old
        = monitor.system_state := by
      rw [dispatch_fst, update_old]
    simp only [monitor_run_trace]
    split_ifs
    · simp [hold]
    · simp only [List.map_cons, hold, ih, List.dropLast_cons₂]
    · simp only [List.map_cons, hold, ih, List.dropLast_cons₂]

theorem run_eq_trace_last {W : Type} (ticks : List Tick) :
    ∀ (monitor : Monitor W) (world : W),
      monitor_run ticks monitor world
        = ((monitor_run_trace ticks monitor world).getLast?).getD (monitor, world) := by
  induction ticks with
  | nil => intro monitor world; rfl
  | cons tick ticks ih =>
    intro monitor world
    simp only [monitor_run, monitor_run_trace]
    split_ifs
    · rfl
    · rw [ih]
      cases h : monitor_run_trace ticks (monitor_run_dispatch tick.dbus monitor world).1
          (monitor_run_dispatch tick.dbus monitor world).2 with
      | nil => rfl
      | cons a as => simp [List.getLast?_cons_cons, List.getLast?_eq_getLast _ (List.cons_ne_nil a as)]
    · rw [ih]
      cases h : monitor_run_trace ticks (monitor_run_dispatch tick.dbus monitor world).1
          (monitor_run_dispatch tick.dbus monitor world).2 with
      | nil => rfl
      | cons a as => simp [List.getLast?_cons_cons, List.getLast?_eq_getLast _ (List.cons_ne_nil a as)]

/-- C3: in a run of `monitor_run` from a new monitor (with any callback), on
any list of fetches and sleep results, the value of `system_state_old` at the
end of each iteration is the value `system_state` had at the end of the
iteration before, and Unknown at the end of the first: the list of the old
states is the list of the states shifted by one place, with Unknown in front.
The result of `monitor_run` is the last entry of that list of iterations. -/
theorem C3_old_state_is_previous_state {W : Type} (ticks : List Tick)
    (cb : Option (Nat → Nat → W → W)) (world : W) :
    (monitor_run_trace ticks
        (monitor_register_on_system_state_change_cb (monitor_new W) cb) world).map
          (fun p => p.1.system_state_old)
      = (SYSTEM_STATE_UNKNOWN
          :: (monitor_run_trace ticks
              (monitor_register_on_system_state_change_cb (monitor_new W) cb) world).map
                (fun p => p.1.system_state)).dropLast
    ∧ monitor_run ticks (monitor_register_on_system_state_change_cb (monitor_new W) cb) world
      = ((monitor_run_trace ticks
            (monitor_register_on_system_state_change_cb (monitor_new W) cb) world).getLast?).getD
          (monitor_register_on_system_state_change_cb (monitor_new W) cb, world) :=
  ⟨trace_old ticks _ world, run_eq_trace_last ticks _ world⟩

theorem run_calls_length (ticks : List Tick) :
    ∀ (monitor : Monitor (List (Nat × Nat))) (calls : List (Nat × Nat)),
      monitor.on_system_state_change = some record_call →
      (monitor_run ticks monitor calls).2.length
        = calls.length + transitions (monitor.system_state
            :: (monitor_run_trace ticks monitor calls).map (fun p => p.1.system_state)) := by
  induction ticks with
  | nil => intro monitor calls _; simp [monitor_run, monitor_run_trace, transitions]
  | cons tick ticks ih =>
    intro monitor calls hcb
    have hcb1 : (monitor_run_dispatch tick.dbus monitor calls).1.on_system_state_change
        = some record_call := by
      rw [dispatch_fst, update_cb, hcb]
    have hlen : (monitor_run_dispatch tick.dbus monitor calls).2.length
        = calls.length + (if monitor.system_state
            ≠ (monitor_run_dispatch tick.dbus monitor calls).1.system_state then 1 else 0) := by
      rw [dispatch_snd_some tick.dbus monitor calls record_call hcb, dispatch_fst]
      by_cases hne : (monitor_update_system_state tick.dbus monitor).1.system_state
          = monitor.system_state
      · simp [hne]
      · simp [hne, Ne.symm hne, record_call]
    simp only [monitor_run, monitor_run_trace]
    split_ifs
    · simp only [List.map_cons, List.map_nil, transitions, hlen]
      omega
    · rw [ih _ _ hcb1]
      simp only [List.map_cons, transitions, hlen]
      omega
    · rw [ih _ _ hcb1]
      simp only [List.map_cons, transitions, hlen]
      omega

/-- C4: in an iteration of `monitor_run` with a callback `f` bound, the world
after the dispatch is `f system_state system_state_old` applied once to the
world before it when the two states differ after the update, and the world
before it when they are equal; with no callback bound the world is unchanged.
With the recording callback the list of calls gains exactly the pair
`(system_state, system_state_old)` or nothing, and over a run the number of
calls recorded is the number of iterations whose state differs from the state
of the iteration before. -/
theorem C4_callback_iff_state_changed {W : Type} (dbus : DBusCall) (ticks : List Tick)
    (monitor : Monitor W) (f : Nat → Nat → W → W) (world : W)
    (recorder : Monitor (List (Nat × Nat))) (calls : List (Nat × Nat)) :
    (monitor_run_dispatch dbus
        (monitor_register_on_system_state_change_cb monitor (some f)) world).2
      = (if (monitor_update_system_state dbus monitor).1.system_state
            ≠ (monitor_update_system_state dbus monitor).1.system_state_old
          then f (monitor_update_system_state dbus monitor).1.system_state
            (monitor_update_system_state dbus monitor).1.system_state_old world
          else world)
    ∧ (monitor_run_dispatch dbus
        (monitor_register_on_system_state_change_cb monitor none) world).2 = world
    ∧ (monitor_run_dispatch dbus
        (monitor_register_on_system_state_change_cb recorder (some record_call)) calls).2
      = calls ++ (if (monitor_update_system_state dbus recorder).1.system_state
            ≠ (monitor_update_system_state dbus recorder).1.system_state_old
          then [((monitor_update_system_state dbus recorder).1.system_state,
            (monitor_update_system_state dbus recorder).1.system_state_old)]
          else [])
    ∧ (monitor_run ticks
        (monitor_register_on_system_state_change_cb recorder (some record_call)) calls).2.length
      = calls.length + transitions (recorder.system_state
          :: (monitor_run_trace ticks
              (monitor_register_on_system_state_change_cb recorder (some record_call))
              calls).map (fun p => p.1.system_state)) := by
  have hstate : ∀ {V : Type} (m : Monitor V) (cb : Option (Nat → Nat → V → V)),
      (monitor_update_system_state dbus
        (monitor_register_on_system_state_change_cb m cb)).1.system_state
        = (monitor_update_system_state dbus m).1.system_state := by
    intro V m cb
    rw [update_register]
  refine ⟨?_, ?_, ?_, ?_⟩
  · rw [dispatch_snd_some dbus _ world f rfl, hstate, update_old]
    rfl
  · exact dispatch_snd_none dbus _ world rfl
  · rw [dispatch_snd_some dbus _ calls record_call rfl, hstate, update_old]
    by_cases hne : (monitor_update_system_state dbus recorder).1.system_state
        = recorder.system_state
    · simp [hne, monitor_register_on_system_state_change_cb]
    · simp [hne, monitor_register_on_system_state_change_cb, record_call]
  · exact run_calls_length ticks _ calls rfl

/-- C5: from a new monitor with the recording callback bound, six iterations
that fetch "unknown", "starting", "starting", "running", "degraded", "unknown"
record exactly the calls (Starting, Unknown), (Running, Starting),
(Degraded, Running), (Unknown, Degraded), in that order. -/
theorem C5_scenario_calls :
    (monitor_run scenario_ticks
        (monitor_register_on_system_state_change_cb (monitor_new (List (Nat × Nat)))
          (some record_call)) []).2
      = [(SYSTEM_STATE_STARTING, SYSTEM_STATE_UNKNOWN),
         (SYSTEM_STATE_RUNNING, SYSTEM_STATE_STARTING),
         (SYSTEM_STATE_DEGRADED, SYSTEM_STATE_RUNNING),
         (SYSTEM_STATE_UNKNOWN, SYSTEM_STATE_DEGRADED)] := by
  decide

/-- C6, as stated, fails: in the scenario of six fetches the callback is not
called on iteration 1 (the fetched state Unknown is the initial state), so it
is false that it is called on iterations 1, 2, 4, 5, 6 and not on 3. -/
theorem C6_counterexample :
    ¬ (callback_fires scenario_ticks 1 = true ∧ callback_fires scenario_ticks 2 = true
      ∧ callback_fires scenario_ticks 3 = false ∧ callback_fires scenario_ticks 4 = true
      ∧ callback_fires scenario_ticks 5 = true ∧ callback_fires scenario_ticks 6 = true) := by
  decide

/-- C6, amended: in the scenario of six fetches the callback is called on
iterations 2, 4, 5 and 6, and is called neither on iteration 1 nor on
iteration 3. -/
theorem C6_scenario_fires :
    callback_fires scenario_ticks 1 = false ∧ callback_fires scenario_ticks 2 = true
    ∧ callback_fires scenario_ticks 3 = false ∧ callback_fires scenario_ticks 4 = true
    ∧ callback_fires scenario_ticks 5 = true ∧ callback_fires scenario_ticks 6 = true := by
  decide

/-- C7: in an iteration of `monitor_run` whose fetch fails (the fetcher
returns a value other than 0), on a monitor in state `s` with a callback `f`
bound, the world after the dispatch is `f Unknown s` applied to the world
before it when `s` is not Unknown, and the world before it when `s` is Unknown;
the monitor ends in state Unknown with `s` as its old state. -/
theorem C7_failed_fetch_dispatch {W : Type} (dbus : DBusCall) (monitor : Monitor W)
    (f : Nat → Nat → W → W) (world : W)
    (hfail : (_monitor_update_system_state_str dbus monitor).2 ≠ 0)
    (hcb : monitor.on_system_state_change = some f) :
    (monitor_run_dispatch dbus monitor world).2
      = (if monitor.system_state ≠ SYSTEM_STATE_UNKNOWN
          then f SYSTEM_STATE_UNKNOWN monitor.system_state world else world)
    ∧ (monitor_run_dispatch dbus monitor world).1.system_state = SYSTEM_STATE_UNKNOWN
    ∧ (monitor_run_dispatch dbus monitor world).1.system_state_old = monitor.system_state := by
  have hu := (update_failed dbus monitor hfail).2
  refine ⟨?_, ?_, ?_⟩
  · rw [dispatch_snd_some dbus monitor world f hcb, hu]
    by_cases hs : monitor.system_state = SYSTEM_STATE_UNKNOWN
    · simp [hs]
    · simp [hs, Ne.symm hs]
  · rw [dispatch_fst, hu]
  · rw [dispatch_fst, update_old]

/-- Witness of C7 with the recording callback and a fetch that gets no reply:
after Running the call (Unknown, Running) is recorded, after a failure
(state Unknown) nothing is. -/
theorem C7_failed_fetch_dispatch_witness :
    (monitor_running.system_state = SYSTEM_STATE_RUNNING
      ∧ (monitor_run_dispatch fetch_no_reply monitor_running []).2
        = [(SYSTEM_STATE_UNKNOWN, SYSTEM_STATE_RUNNING)])
    ∧ (monitor_failed.system_state = SYSTEM_STATE_UNKNOWN
      ∧ (monitor_run_dispatch fetch_no_reply monitor_failed []).2 = []) :=
  ⟨⟨by decide,
    (C7_failed_fetch_dispatch fetch_no_reply monitor_running record_call []
      (by decide) rfl).1⟩,
   ⟨by decide,
    (C7_failed_fetch_dispatch fetch_no_reply monitor_failed record_call []
      (by decide) rfl).1⟩⟩

/-- C8: `monitor_update_system_state` returns the value its call of
`_monitor_update_system_state_str` returns, which is 0 or -1; when it is not 0
the value is -1, the twelve bytes of the text are "unknown" followed by five
NUL bytes, and `system_state` is Unknown.  A fetch whose reply is a variant
that wraps a string returns 0, a fetch with no reply returns -1. -/
theorem C8_update_on_failure {W : Type} (dbus : DBusCall) (monitor : Monitor W)
    (label : List Nat) :
    (monitor_update_system_state dbus monitor).2
        = (_monitor_update_system_state_str dbus monitor).2
    ∧ ((monitor_update_system_state dbus monitor).2 = 0
      ∨ ((monitor_update_system_state dbus monitor).2 = -1
        ∧ (monitor_update_system_state dbus monitor).1.system_state_str.take SYSTEM_STATE_SIZE
            = cstr "unknown" ++ [0, 0, 0, 0, 0]
        ∧ (monitor_update_system_state dbus monitor).1.system_state = SYSTEM_STATE_UNKNOWN))
    ∧ (monitor_update_system_state (fetch_ok label) monitor).2 = 0
    ∧ (monitor_update_system_state fetch_no_reply monitor).2 = -1 := by
  refine ⟨update_rval dbus monitor, ?_, rfl, rfl⟩
  rw [update_rval]
  rcases fetch_rval dbus monitor with h0 | h1
  · exact Or.inl h0
  · right
    have hne : (_monitor_update_system_state_str dbus monitor).2 ≠ 0 := by
      rw [h1.1]; decide
    have hf := update_failed dbus monitor hne
    refine ⟨h1.1, ?_, hf.2⟩
    rw [hf.1]
    have hlen : (strncpy_bytes SYSTEM_STATE_UNKNOWN_STR SYSTEM_STATE_SIZE).length
        = SYSTEM_STATE_SIZE := by decide
    rw [List.take_append_eq_append_take, hlen]
    simp only [Nat.sub_self, List.take_zero, List.append_nil]
    decide

/-! ## The indicator -/

/-- C9: the values written to the colour file by `on_system_state_change`
depend on the new state only: when the file opens, exactly one value is
written, 3 (purple) for Starting and for Stopping, 1 (red) for Degraded and for
Maintenance, 0 (blue) for Running, and when it does not open nothing is
written; two calls that differ in the old state only have the same effect. -/
theorem C9_indicator_from_new_state (led : Led) (old1 old2 new : Nat) :
    (on_system_state_change SYSTEM_STATE_STARTING old1 led).written
        = led.written ++ (if led.fopen_ok then [3] else [])
    ∧ (on_system_state_change SYSTEM_STATE_STOPPING old1 led).written
        = led.written ++ (if led.fopen_ok then [3] else [])
    ∧ (on_system_state_change SYSTEM_STATE_DEGRADED old1 led).written
        = led.written ++ (if led.fopen_ok then [1] else [])
    ∧ (on_system_state_change SYSTEM_STATE_MAINTENANCE old1 led).written
        = led.written ++ (if led.fopen_ok then [1] else [])
    ∧ (on_system_state_change SYSTEM_STATE_RUNNING old1 led).written
        = led.written ++ (if led.fopen_ok then [0] else [])
    ∧ on_system_state_change new old1 led = on_system_state_change new old2 led
    ∧ LED_PURPLE = 3 ∧ LED_RED = 1 ∧ LED_BLUE = 0 := by
  refine ⟨?_, ?_, ?_, ?_, ?_, rfl, rfl, rfl, rfl⟩ <;>
    cases h : led.fopen_ok <;>
    simp [on_system_state_change, Led.written, h, SYSTEM_STATE_STARTING, SYSTEM_STATE_STOPPING,
      SYSTEM_STATE_DEGRADED, SYSTEM_STATE_MAINTENANCE, SYSTEM_STATE_RUNNING, LED_PURPLE, LED_RED,
      LED_BLUE, List.filterMap_append]

/-- C10: called with the new state Unknown and any old state,
`on_system_state_change` writes nothing to the colour file: the list of the
values written is unchanged, the only calls made on the file being `fopen` and
`fclose` when the file opens, and none when it does not. -/
theorem C10_unknown_writes_nothing (led : Led) (old : Nat) :
    (on_system_state_change SYSTEM_STATE_UNKNOWN old led).written = led.written
    ∧ (on_system_state_change SYSTEM_STATE_UNKNOWN old led).ops
        = led.ops ++ (if led.fopen_ok then [FileOp.fopen, FileOp.fclose] else []) := by
  cases h : led.fopen_ok <;>
    simp [on_system_state_change, Led.written, h, SYSTEM_STATE_STARTING, SYSTEM_STATE_STOPPING,
      SYSTEM_STATE_DEGRADED, SYSTEM_STATE_MAINTENANCE, SYSTEM_STATE_RUNNING,
      SYSTEM_STATE_UNKNOWN, List.filterMap_append]

/-! ## The text after an update -/

theorem strncpy_bytes_length (n : Nat) : ∀ s : List Nat, (strncpy_bytes s n).length = n := by
  induction n with
  | zero => intro s; cases s <;> rfl
  | succ n ih =>
    intro s
    cases s with
    | nil => simp [strncpy_bytes, ih]
    | cons c cs =>
      simp only [strncpy_bytes]
      split_ifs <;> simp [ih]

theorem strncpy_bytes_nil (n : Nat) : strncpy_bytes [] n = List.replicate n 0 := by
  induction n with
  | zero => rfl
  | succ n ih => simp [strncpy_bytes, ih, List.replicate_succ]

theorem strncpy_bytes_nul_free (n : Nat) :
    ∀ s : List Nat, (∀ b ∈ s, b ≠ 0) →
      strncpy_bytes s n = s.take n ++ List.replicate (n - s.length) 0 := by
  induction n with
  | zero => intro s _; cases s <;> simp [strncpy_bytes]
  | succ n ih =>
    intro s hs
    cases s with
    | nil => simp [strncpy_bytes_nil]
    | cons c cs =>
      have hc : c ≠ 0 := hs c (List.mem_cons_self _ _)
      simp [strncpy_bytes, hc, ih cs (fun b hb => hs b (List.mem_cons_of_mem _ hb))]

theorem take_size_strncpy_bytes (s rest : List Nat) :
    (strncpy_bytes s SYSTEM_STATE_SIZE ++ rest).take SYSTEM_STATE_SIZE
      = strncpy_bytes s SYSTEM_STATE_SIZE := by
  rw [List.take_append_eq_append_take, strncpy_bytes_length]
  simp [strncpy_bytes_length]

theorem fetch_success {W : Type} (dbus : DBusCall) (monitor : Monitor W)
    (h : (_monitor_update_system_state_str dbus monitor).2 = 0) :
    ∃ label rest, dbus.bus = true ∧ dbus.msg = true ∧ dbus.args = true
      ∧ dbus.reply = some (DBusArg.variant (DBusArg.string label) :: rest)
      ∧ (_monitor_update_system_state_str dbus monitor).1 = store_label monitor label := by
  rcases dbus with ⟨bus, msg, args, reply⟩
  cases bus <;> cases msg <;> cases args <;>
    try (simp [_monitor_update_system_state_str] at h)
  cases reply with
  | none => simp [_monitor_update_system_state_str] at h
  | some l =>
    cases l with
    | nil => simp [_monitor_update_system_state_str] at h
    | cons a as =>
      cases a with
      | string b => simp [_monitor_update_system_state_str] at h
      | other => simp [_monitor_update_system_state_str] at h
      | variant c =>
        cases c with
        | string b => exact ⟨b, as, rfl, rfl, rfl, rfl, rfl⟩
        | other => simp [_monitor_update_system_state_str] at h
        | variant d => simp [_monitor_update_system_state_str] at h

theorem update_str_cases {W : Type} (dbus : DBusCall) (monitor : Monitor W) :
    ((monitor_update_system_state dbus monitor).2 = 0
      ∧ ∃ label rest, dbus.reply = some (DBusArg.variant (DBusArg.string label) :: rest)
        ∧ (monitor_update_system_state dbus monitor).1.system_state_str
          = strncpy_bytes label SYSTEM_STATE_SIZE
            ++ monitor.system_state_str.drop SYSTEM_STATE_SIZE)
    ∨ ((monitor_update_system_state dbus monitor).2 = -1
      ∧ (monitor_update_system_state dbus monitor).1.system_state_str
          = strncpy_bytes SYSTEM_STATE_UNKNOWN_STR SYSTEM_STATE_SIZE
            ++ monitor.system_state_str.drop SYSTEM_STATE_SIZE) := by
  rw [update_rval]
  rcases fetch_rval dbus monitor with h0 | h1
  · left
    refine ⟨h0, ?_⟩
    have h0' : (_monitor_update_system_state_str dbus
        { monitor with system_state_old := monitor.system_state }).2 = 0 := by
      rwa [fetch_rval_indep dbus _ monitor]
    obtain ⟨label, rest, _, _, _, hreply, hm⟩ := fetch_success dbus _ h0'
    refine ⟨label, rest, hreply, ?_⟩
    simp only [monitor_update_system_state]
    rw [(parse_fields _).1, if_neg (by simpa using h0'), hm]
    simp [store_label, strncpy, memset, SYSTEM_STATE_SIZE, List.drop_append_eq_append_drop]
  · right
    have hne : (_monitor_update_system_state_str dbus monitor).2 ≠ 0 := by
      rw [h1.1]; decide
    exact ⟨h1.1, (update_failed dbus monitor hne).1⟩

/-- C11, as stated, fails: after an update whose fetch returns the string
"maintenanceX" of twelve bytes, the twelve bytes of the text are those of the
string and none of them is a NUL. -/
theorem C11_counterexample :
    (monitor_update_system_state (fetch_ok (cstr "maintenanceX"))
        (monitor_new Unit)).1.system_state_str = cstr "maintenanceX"
    ∧ ¬ (0 ∈ (monitor_update_system_state (fetch_ok (cstr "maintenanceX"))
        (monitor_new Unit)).1.system_state_str.take SYSTEM_STATE_SIZE) := by
  decide

/-- C11, amended: after every call of `monitor_update_system_state` the text
has twelve bytes; when the fetch fails they are "unknown" and five NUL bytes;
when it returns a string `label` without NUL they are the first twelve bytes
of `label`, followed by NUL bytes when `label` is shorter; so the text holds a
terminating NUL exactly when `label` has at most eleven bytes, and a longer
`label` is cut to twelve bytes with no NUL after them. -/
theorem C11_text_after_update {W : Type} (dbus : DBusCall) (monitor : Monitor W)
    (label : List Nat) (hnul : ∀ b ∈ label, b ≠ 0) :
    ((monitor_update_system_state dbus monitor).1.system_state_str.take
        SYSTEM_STATE_SIZE).length = SYSTEM_STATE_SIZE
    ∧ ((monitor_update_system_state dbus monitor).2 = 0
      ∨ (monitor_update_system_state dbus monitor).1.system_state_str.take SYSTEM_STATE_SIZE
          = cstr "unknown" ++ [0, 0, 0, 0, 0])
    ∧ (monitor_update_system_state (fetch_ok label) monitor).1.system_state_str.take
        SYSTEM_STATE_SIZE
      = label.take 12 ++ List.replicate (12 - label.length) 0
    ∧ (0 ∈ (monitor_update_system_state (fetch_ok label) monitor).1.system_state_str.take
        SYSTEM_STATE_SIZE ↔ label.length ≤ 11) := by
  have hok : (monitor_update_system_state (fetch_ok label) monitor).1.system_state_str.take
      SYSTEM_STATE_SIZE = label.take 12 ++ List.replicate (12 - label.length) 0 := by
    rw [update_fetch_ok]
    simp only [(parse_fields _).1]
    have : (store_label { monitor with system_state_old := monitor.system_state }
        label).system_state_str = strncpy_bytes label SYSTEM_STATE_SIZE
          ++ monitor.system_state_str.drop SYSTEM_STATE_SIZE := by
      simp [store_label, strncpy, memset, SYSTEM_STATE_SIZE, List.drop_append_eq_append_drop]
    rw [this, take_size_strncpy_bytes, strncpy_bytes_nul_free _ _ hnul]
    rfl
  refine ⟨?_, ?_, hok, ?_⟩
  · rcases update_str_cases dbus monitor with ⟨_, _, _, _, h⟩ | ⟨_, h⟩ <;>
      rw [h, take_size_strncpy_bytes, strncpy_bytes_length]
  · rcases update_str_cases dbus monitor with ⟨h, _⟩ | ⟨_, h⟩
    · exact Or.inl h
    · right
      rw [h, take_size_strncpy_bytes]
      decide
  · rw [hok]
    constructor
    · intro h0
      rcases List.mem_append.1 h0 with h1 | h1
      · exact absurd rfl (hnul 0 (List.mem_of_mem_take h1))
      · by_contra hlen
        have : 12 - label.length = 0 := by omega
        simp [this] at h1
    · intro hlen
      apply List.mem_append_right
      rw [List.mem_replicate]
      exact ⟨by omega, rfl⟩

/-- Witness of C11 (amended) at a fetch with no reply and the string
"maintenanceX". -/
theorem C11_text_after_update_witness :
    ((monitor_update_system_state fetch_no_reply (monitor_new Unit)).1.system_state_str.take
        SYSTEM_STATE_SIZE).length = SYSTEM_STATE_SIZE
    ∧ ((monitor_update_system_state fetch_no_reply (monitor_new Unit)).2 = 0
      ∨ (monitor_update_system_state fetch_no_reply (monitor_new Unit)).1.system_state_str.take
          SYSTEM_STATE_SIZE = cstr "unknown" ++ [0, 0, 0, 0, 0])
    ∧ (monitor_update_system_state (fetch_ok (cstr "maintenanceX"))
        (monitor_new Unit)).1.system_state_str.take SYSTEM_STATE_SIZE
      = (cstr "maintenanceX").take 12 ++ List.replicate (12 - (cstr "maintenanceX").length) 0
    ∧ (0 ∈ (monitor_update_system_state (fetch_ok (cstr "maintenanceX"))
        (monitor_new Unit)).1.system_state_str.take SYSTEM_STATE_SIZE
      ↔ (cstr "maintenanceX").length ≤ 11) :=
  C11_text_after_update fetch_no_reply (monitor_new Unit) (cstr "maintenanceX") (by decide)

/-! ## The parser is a total function of the text -/

theorem parse_state_canonical {W : Type} (monitor : Monitor W) :
    (_monitor_parse_system_state monitor).system_state ∈ canonical_states := by
  simp only [_monitor_parse_system_state]
  split_ifs <;> simp [canonical_states]

/-- C12: the state that `_monitor_parse_system_state` assigns is a function of
the text alone: two monitors with the same text, whatever their states, old
states and callbacks, get the same `system_state`; and for every text the
state assigned is one of the six state codes. -/
theorem C12_parse_function_of_text {W V : Type} (text : List Nat) (state1 old1 : Nat)
    (cb1 : Option (Nat → Nat → W → W)) (state2 old2 : Nat)
    (cb2 : Option (Nat → Nat → V → V)) :
    (_monitor_parse_system_state
        { system_state_str := text, system_state := state1, system_state_old := old1,
          on_system_state_change := cb1 }).system_state
      = (_monitor_parse_system_state
        { system_state_str := text, system_state := state2, system_state_old := old2,
          on_system_state_change := cb2 }).system_state
    ∧ (_monitor_parse_system_state
        { system_state_str := text, system_state := state1, system_state_old := old1,
          on_system_state_change := cb1 }).system_state ∈ canonical_states := by
  refine ⟨?_, parse_state_canonical _⟩
  simp only [_monitor_parse_system_state]
  split_ifs <;> rfl

/-! ## Exit of the loop -/

theorem dispatch_all_cons {W : Type} (tick : Tick) (ticks : List Tick) (monitor : Monitor W)
    (world : W) :
    dispatch_all (tick :: ticks) monitor world
      = dispatch_all ticks (monitor_run_dispatch tick.dbus monitor world).1
          (monitor_run_dispatch tick.dbus monitor world).2 := rfl

theorem run_append {W : Type} (pre rest : List Tick) :
    ∀ (monitor : Monitor W) (world : W),
      (∀ t ∈ pre, t.nanosleep = 0 ∨ t.errno ≠ EINTR) →
      monitor_run (pre ++ rest) monitor world
          = monitor_run rest (dispatch_all pre monitor world).1 (dispatch_all pre monitor world).2
      ∧ monitor_run_trace (pre ++ rest) monitor world
          = monitor_run_trace pre monitor world
            ++ monitor_run_trace rest (dispatch_all pre monitor world).1
                (dispatch_all pre monitor world).2
      ∧ (monitor_run_trace pre monitor world).length = pre.length := by
  induction pre with
  | nil => intro monitor world _; exact ⟨rfl, rfl, rfl⟩
  | cons tick pre ih =>
    intro monitor world h
    have ht := h tick (List.mem_cons_self _ _)
    have ih2 := ih (monitor_run_dispatch tick.dbus monitor world).1
      (monitor_run_dispatch tick.dbus monitor world).2
      (fun t hmem => h t (List.mem_cons_of_mem _ hmem))
    simp only [List.cons_append, monitor_run, monitor_run_trace, dispatch_all_cons]
    split_ifs with h1 h2
    · rcases ht with ht | ht
      · exact absurd ht h1
      · exact absurd h2 ht
    · exact ⟨ih2.1, congrArg (List.cons _) ih2.2.1, by simp [ih2.2.2]⟩
    · exact ⟨ih2.1, congrArg (List.cons _) ih2.2.1, by simp [ih2.2.2]⟩

theorem dispatch_all_append_singleton {W : Type} (pre : List Tick) (tick : Tick)
    (monitor : Monitor W) (world : W) :
    dispatch_all (pre ++ [tick]) monitor world
      = monitor_run_dispatch tick.dbus (dispatch_all pre monitor world).1
          (dispatch_all pre monitor world).2 := by
  simp [dispatch_all, List.foldl_append]

/-- C13: when the sleep of `tick` is the first that is interrupted
(`nanosleep` returns a value other than 0 with `errno` equal to `EINTR`),
`monitor_run` makes the update and the dispatch of each iteration up to that
of `tick`, this one included and complete, and then stops: its result and the
list of its iterations are those of the run on the ticks up to `tick`, which
has one iteration for each of them, whatever the ticks `post` after it. -/
theorem C13_exit_on_first_interrupted_sleep {W : Type} (pre post : List Tick) (tick : Tick)
    (monitor : Monitor W) (world : W)
    (hpre : ∀ t ∈ pre, t.nanosleep = 0 ∨ t.errno ≠ EINTR)
    (htick : tick.nanosleep ≠ 0 ∧ tick.errno = EINTR) :
    monitor_run (pre ++ tick :: post) monitor world
        = dispatch_all (pre ++ [tick]) monitor world
    ∧ monitor_run_trace (pre ++ tick :: post) monitor world
        = monitor_run_trace (pre ++ [tick]) monitor world
    ∧ (monitor_run_trace (pre ++ tick :: post) monitor world).length = pre.length + 1 := by
  have h1 := run_append pre (tick :: post) monitor world hpre
  have h2 := run_append pre [tick] monitor world hpre
  have hrun : ∀ (rest : List Tick) (m : Monitor W) (w : W),
      monitor_run (tick :: rest) m w = monitor_run_dispatch tick.dbus m w
      ∧ monitor_run_trace (tick :: rest) m w = [monitor_run_dispatch tick.dbus m w] := by
    intro rest m w
    simp only [monitor_run, monitor_run_trace]
    rw [if_pos htick.1, if_pos htick.2, if_pos htick.1, if_pos htick.2]
    exact ⟨rfl, rfl⟩
  refine ⟨?_, ?_, ?_⟩
  · rw [h1.1, (hrun post _ _).1, dispatch_all_append_singleton]
  · rw [h1.2.1, h2.2.1, (hrun post _ _).2, (hrun [] _ _).2]
  · rw [h1.2.1, (hrun post _ _).2, List.length_append, h1.2.2]
    rfl

/-- Witness of C13: the sleep of the second of three iterations is
interrupted; the third fetch ("degraded") is never made. -/
theorem C13_exit_on_first_interrupted_sleep_witness :
    monitor_run ([tick_label "starting"]
          ++ { dbus := fetch_ok (cstr "running"), nanosleep := -1, errno := EINTR }
            :: [tick_label "degraded"])
        (monitor_register_on_system_state_change_cb (monitor_new (List (Nat × Nat)))
          (some record_call)) []
      = dispatch_all ([tick_label "starting"]
          ++ [{ dbus := fetch_ok (cstr "running"), nanosleep := -1, errno := EINTR }])
        (monitor_register_on_system_state_change_cb (monitor_new (List (Nat × Nat)))
          (some record_call)) []
    ∧ monitor_run_trace ([tick_label "starting"]
          ++ { dbus := fetch_ok (cstr "running"), nanosleep := -1, errno := EINTR }
            :: [tick_label "degraded"])
        (monitor_register_on_system_state_change_cb (monitor_new (List (Nat × Nat)))
          (some record_call)) []
      = monitor_run_trace ([tick_label "starting"]
          ++ [{ dbus := fetch_ok (cstr "running"), nanosleep := -1, errno := EINTR }])
        (monitor_register_on_system_state_change_cb (monitor_new (List (Nat × Nat)))
          (some record_call)) []
    ∧ (monitor_run_trace ([tick_label "starting"]
          ++ { dbus := fetch_ok (cstr "running"), nanosleep := -1, errno := EINTR }
            :: [tick_label "degraded"])
        (monitor_register_on_system_state_change_cb (monitor_new (List (Nat × Nat)))
          (some record_call)) []).length = [tick_label "starting"].length + 1 :=
  C13_exit_on_first_interrupted_sleep [tick_label "starting"] [tick_label "degraded"]
    { dbus := fetch_ok (cstr "running"), nanosleep := -1, errno := EINTR } _ []
    (by decide) (by decide)

/-- C19: a sleep that is complete (`nanosleep` returns 0), or that fails with
an `errno` other than `EINTR`, does not end the loop: the run on `tick :: rest`
is the run on `rest` from the monitor and world after the dispatch of `tick`;
and when no sleep of `ticks` is interrupted, `monitor_run` makes the update and
the dispatch of every one of them, one iteration for each. -/
theorem C19_loop_continues_without_eintr {W : Type} (ticks rest : List Tick) (tick : Tick)
    (monitor : Monitor W) (world : W)
    (htick : tick.nanosleep = 0 ∨ tick.errno ≠ EINTR)
    (hticks : ∀ t ∈ ticks, t.nanosleep = 0 ∨ t.errno ≠ EINTR) :
    monitor_run (tick :: rest) monitor world
        = monitor_run rest (monitor_run_dispatch tick.dbus monitor world).1
            (monitor_run_dispatch tick.dbus monitor world).2
    ∧ monitor_run ticks monitor world = dispatch_all ticks monitor world
    ∧ (monitor_run_trace ticks monitor world).length = ticks.length := by
  have h1 := run_append [tick] rest monitor world (by simpa using htick)
  have h2 := run_append ticks [] monitor world hticks
  refine ⟨h1.1, ?_, h2.2.2⟩
  have := h2.1
  rw [List.append_nil] at this
  rw [this]
  rfl

/-- Witness of C19: a complete sleep, then a sleep that fails with an `errno`
other than `EINTR` (22, `EINVAL`), then a complete sleep. -/
theorem C19_loop_continues_without_eintr_witness :
    monitor_run ({ dbus := fetch_ok (cstr "running"), nanosleep := -1, errno := 22 }
          :: [tick_label "degraded"])
        (monitor_register_on_system_state_change_cb (monitor_new (List (Nat × Nat)))
          (some record_call)) []
      = monitor_run [tick_label "degraded"]
          (monitor_run_dispatch (fetch_ok (cstr "running"))
            (monitor_register_on_system_state_change_cb (monitor_new (List (Nat × Nat)))
              (some record_call)) []).1
          (monitor_run_dispatch (fetch_ok (cstr "running"))
            (monitor_register_on_system_state_change_cb (monitor_new (List (Nat × Nat)))
              (some record_call)) []).2
    ∧ monitor_run [tick_label "starting",
          { dbus := fetch_ok (cstr "running"), nanosleep := -1, errno := 22 },
          tick_label "degraded"]
        (monitor_register_on_system_state_change_cb (monitor_new (List (Nat × Nat)))
          (some record_call)) []
      = dispatch_all [tick_label "starting",
          { dbus := fetch_ok (cstr "running"), nanosleep := -1, errno := 22 },
          tick_label "degraded"]
        (monitor_register_on_system_state_change_cb (monitor_new (List (Nat × Nat)))
          (some record_call)) []
    ∧ (monitor_run_trace [tick_label "starting",
          { dbus := fetch_ok (cstr "running"), nanosleep := -1, errno := 22 },
          tick_label "degraded"]
        (monitor_register_on_system_state_change_cb (monitor_new (List (Nat × Nat)))
          (some record_call)) []).length
      = [tick_label "starting",
          { dbus := fetch_ok (cstr "running"), nanosleep := -1, errno := 22 },
          tick_label "degraded"].length :=
  C19_loop_continues_without_eintr
    [tick_label "starting",
      { dbus := fetch_ok (cstr "running"), nanosleep := -1, errno := 22 },
      tick_label "degraded"]
    [tick_label "degraded"]
    { dbus := fetch_ok (cstr "running"), nanosleep := -1, errno := 22 } _ []
    (by decide) (by decide)

/-! ## The new monitor -/

theorem dispatch_no_change {W : Type} (dbus : DBusCall) (monitor : Monitor W) (world : W)
    (h : (monitor_update_system_state dbus monitor).1.system_state = monitor.system_state) :
    (monitor_run_dispatch dbus monitor world).2 = world := by
  simp only [monitor_run_dispatch, update_old]
  rw [if_neg (by simpa using h)]

theorem update_unknown_label {W : Type} (monitor : Monitor W) (label : List Nat)
    (hnul : ∀ b ∈ label, b ≠ 0) (hnot : label ∉ known_labels) :
    (monitor_update_system_state (fetch_ok label) monitor).1.system_state
      = SYSTEM_STATE_UNKNOWN := by
  rw [update_fetch_ok]
  have := parse_strncpy_bytes_unknown
    (store_label { monitor with system_state_old := monitor.system_state } label) label
    (monitor.system_state_str.drop SYSTEM_STATE_SIZE) hnul hnot
  simpa [store_label, strncpy, memset, SYSTEM_STATE_SIZE, List.drop_append_eq_append_drop]
    using this

/-- C14: the monitor that `monitor_new` returns has `system_state` and
`system_state_old` equal to Unknown, the text "unknown" followed by NUL bytes
and no callback; so, whatever callback is then registered, a first iteration
whose fetch fails, or returns a string without NUL that is none of the five
labels, leaves the world as it was: the callback is not called. -/
theorem C14_new_monitor {W : Type} (dbus : DBusCall) (label : List Nat)
    (cb : Option (Nat → Nat → W → W)) (world : W)
    (hfail : (_monitor_update_system_state_str dbus (monitor_new W)).2 ≠ 0)
    (hnul : ∀ b ∈ label, b ≠ 0) (hnot : label ∉ known_labels) :
    (monitor_new W).system_state = SYSTEM_STATE_UNKNOWN
    ∧ (monitor_new W).system_state_old = SYSTEM_STATE_UNKNOWN
    ∧ (monitor_new W).system_state_str = cstr "unknown" ++ [0, 0, 0, 0, 0]
    ∧ (monitor_new W).on_system_state_change = none
    ∧ (monitor_run_dispatch dbus
        (monitor_register_on_system_state_change_cb (monitor_new W) cb) world).2 = world
    ∧ (monitor_run_dispatch (fetch_ok label)
        (monitor_register_on_system_state_change_cb (monitor_new W) cb) world).2 = world := by
  refine ⟨rfl, rfl, rfl, rfl, ?_, ?_⟩
  · apply dispatch_no_change
    have hfail2 : (_monitor_update_system_state_str dbus
        (monitor_register_on_system_state_change_cb (monitor_new W) cb)).2 ≠ 0 := by
      rwa [fetch_rval_indep dbus _ (monitor_new W)]
    rw [(update_failed dbus _ hfail2).2]
    rfl
  · apply dispatch_no_change
    rw [update_unknown_label _ label hnul hnot]
    rfl

/-- Witness of C14 with the recording callback, a fetch with no reply and the
string "Running". -/
theorem C14_new_monitor_witness :
    (monitor_new (List (Nat × Nat))).system_state = SYSTEM_STATE_UNKNOWN
    ∧ (monitor_new (List (Nat × Nat))).system_state_old = SYSTEM_STATE_UNKNOWN
    ∧ (monitor_new (List (Nat × Nat))).system_state_str = cstr "unknown" ++ [0, 0, 0, 0, 0]
    ∧ (monitor_new (List (Nat × Nat))).on_system_state_change = none
    ∧ (monitor_run_dispatch fetch_no_reply
        (monitor_register_on_system_state_change_cb (monitor_new (List (Nat × Nat)))
          (some record_call)) []).2 = []
    ∧ (monitor_run_dispatch (fetch_ok (cstr "Running"))
        (monitor_register_on_system_state_change_cb (monitor_new (List (Nat × Nat)))
          (some record_call)) []).2 = [] :=
  C14_new_monitor fetch_no_reply (cstr "Running") (some record_call) []
    (by decide) (by decide) (by decide)

/-! ## The result of the fetcher -/

/-- C15: `_monitor_update_system_state_str` returns 0 exactly when the
connection is obtained, the message is created, its arguments are appended, a
reply is received and the first argument of the reply is a variant that wraps
a string; otherwise it returns -1 and the twelve bytes of the text are NUL.
When it returns 0 for the string `label`, the text is what `strncpy` copies of
it: the first twelve bytes of `label`, followed by NUL bytes when `label` is
shorter. -/
theorem C15_fetcher_result {W : Type} (dbus : DBusCall) (monitor : Monitor W)
    (label : List Nat) (rest : List DBusArg) (hnul : ∀ b ∈ label, b ≠ 0) :
    ((_monitor_update_system_state_str dbus monitor).2 = 0
      ↔ (dbus.bus = true ∧ dbus.msg = true ∧ dbus.args = true
        ∧ ∃ l r, dbus.reply = some (DBusArg.variant (DBusArg.string l) :: r)))
    ∧ ((_monitor_update_system_state_str dbus monitor).2 = 0
      ∨ ((_monitor_update_system_state_str dbus monitor).2 = -1
        ∧ (_monitor_update_system_state_str dbus monitor).1.system_state_str.take
            SYSTEM_STATE_SIZE = List.replicate 12 0))
    ∧ (_monitor_update_system_state_str
        { bus := true, msg := true, args := true
          reply := some (DBusArg.variant (DBusArg.string label) :: rest) } monitor).2 = 0
    ∧ (_monitor_update_system_state_str
        { bus := true, msg := true, args := true
          reply := some (DBusArg.variant (DBusArg.string label) :: rest) }
        monitor).1.system_state_str.take SYSTEM_STATE_SIZE
      = label.take 12 ++ List.replicate (12 - label.length) 0 := by
  refine ⟨⟨?_, ?_⟩, ?_, rfl, ?_⟩
  · intro h
    obtain ⟨l, r, hb, hm, ha, hr, _⟩ := fetch_success dbus monitor h
    exact ⟨hb, hm, ha, l, r, hr⟩
  · rintro ⟨hb, hm, ha, l, r, hr⟩
    rcases dbus with ⟨bus, msg, args, reply⟩
    simp only at hb hm ha hr
    subst hb hm ha hr
    rfl
  · rcases fetch_rval dbus monitor with h0 | h1
    · exact Or.inl h0
    · refine Or.inr ⟨h1.1, ?_⟩
      rw [h1.2]
      simp [memset, SYSTEM_STATE_SIZE, List.take_append_eq_append_take]
  · have : (_monitor_update_system_state_str
        { bus := true, msg := true, args := true
          reply := some (DBusArg.variant (DBusArg.string label) :: rest) }
        monitor).1.system_state_str
        = strncpy_bytes label SYSTEM_STATE_SIZE
          ++ monitor.system_state_str.drop SYSTEM_STATE_SIZE := by
      simp [_monitor_update_system_state_str, strncpy, memset, SYSTEM_STATE_SIZE,
        List.drop_append_eq_append_drop]
    rw [this, take_size_strncpy_bytes, strncpy_bytes_nul_free _ _ hnul]
    rfl

/-- Witness of C15 at a reply whose first argument is not a variant, and at
the string "maintenanceX". -/
theorem C15_fetcher_result_witness :
    ((_monitor_update_system_state_str
          { bus := true, msg := true, args := true, reply := some [DBusArg.other] }
          (monitor_new Unit)).2 = 0
      ↔ ((true = true) ∧ (true = true) ∧ (true = true)
        ∧ ∃ l r, some [DBusArg.other] = some (DBusArg.variant (DBusArg.string l) :: r)))
    ∧ ((_monitor_update_system_state_str
          { bus := true, msg := true, args := true, reply := some [DBusArg.other] }
          (monitor_new Unit)).2 = 0
      ∨ ((_monitor_update_system_state_str
            { bus := true, msg := true, args := true, reply := some [DBusArg.other] }
            (monitor_new Unit)).2 = -1
        ∧ (_monitor_update_system_state_str
            { bus := true, msg := true, args := true, reply := some [DBusArg.other] }
            (monitor_new Unit)).1.system_state_str.take SYSTEM_STATE_SIZE
          = List.replicate 12 0))
    ∧ (_monitor_update_system_state_str
        { bus := true, msg := true, args := true
          reply := some (DBusArg.variant (DBusArg.string (cstr "maintenanceX")) :: []) }
        (monitor_new Unit)).2 = 0
    ∧ (_monitor_update_system_state_str
        { bus := true, msg := true, args := true
          reply := some (DBusArg.variant (DBusArg.string (cstr "maintenanceX")) :: []) }
        (monitor_new Unit)).1.system_state_str.take SYSTEM_STATE_SIZE
      = (cstr "maintenanceX").take 12
        ++ List.replicate (12 - (cstr "maintenanceX").length) 0 :=
  C15_fetcher_result
    { bus := true, msg := true, args := true, reply := some [DBusArg.other] }
    (monitor_new Unit) (cstr "maintenanceX") [] (by decide)

/-! ## The D-Bus objects on each exit path -/

theorem ops_rval {W : Type} (dbus : DBusCall) (monitor : Monitor W) :
    (_monitor_update_system_state_str_ops dbus).1
      = (_monitor_update_system_state_str dbus monitor).2 := by
  rcases dbus with ⟨bus, msg, args, reply⟩
  cases bus <;> cases msg <;> cases args <;> try rfl
  cases reply with
  | none => rfl
  | some l =>
    cases l with
    | nil => rfl
    | cons a as =>
      cases a with
      | string b => rfl
      | other => rfl
      | variant c => cases c <;> rfl

theorem ops_cases (dbus : DBusCall) :
    (dbus.bus = false ∧ (_monitor_update_system_state_str_ops dbus).2 = [])
    ∨ (dbus.bus = true ∧ dbus.msg = false
      ∧ (_monitor_update_system_state_str_ops dbus).2
        = [DBusOp.get DBusRes.bus, DBusOp.unref DBusRes.bus])
    ∨ (dbus.bus = true ∧ dbus.msg = true ∧ (dbus.args = false ∨ dbus.reply = none)
      ∧ (_monitor_update_system_state_str_ops dbus).2
        = [DBusOp.get DBusRes.bus, DBusOp.get DBusRes.msg, DBusOp.unref DBusRes.msg,
           DBusOp.unref DBusRes.bus])
    ∨ (dbus.bus = true ∧ dbus.msg = true ∧ dbus.args = true ∧ dbus.reply ≠ none
      ∧ (_monitor_update_system_state_str_ops dbus).2
        = [DBusOp.get DBusRes.bus, DBusOp.get DBusRes.msg, DBusOp.get DBusRes.reply,
           DBusOp.unref DBusRes.reply, DBusOp.unref DBusRes.msg, DBusOp.unref DBusRes.bus]) := by
  rcases dbus with ⟨bus, msg, args, reply⟩
  cases bus
  · exact Or.inl ⟨rfl, rfl⟩
  cases msg
  · exact Or.inr (Or.inl ⟨rfl, rfl, rfl⟩)
  cases args
  · exact Or.inr (Or.inr (Or.inl ⟨rfl, rfl, Or.inl rfl, rfl⟩))
  cases reply with
  | none => exact Or.inr (Or.inr (Or.inl ⟨rfl, rfl, Or.inr rfl, rfl⟩))
  | some l =>
    refine Or.inr (Or.inr (Or.inr ⟨rfl, rfl, rfl, by simp, ?_⟩))
    cases l with
    | nil => rfl
    | cons a as =>
      cases a with
      | string b => rfl
      | other => rfl
      | variant c => cases c <;> rfl

/-- C16: on every exit path of `_monitor_update_system_state_str`, each of the
three D-Bus objects (connection, outgoing message, reply) is dropped as many
times as it was obtained, which is at most once, and it is dropped after it
was obtained; an object that was not obtained is not dropped.  The connection
is obtained when `dbus_bus_get` succeeds, the message when it is also created,
the reply when one is also received. -/
theorem C16_dbus_objects_released_once {W : Type} (dbus : DBusCall) (monitor : Monitor W)
    (res : DBusRes) :
    (_monitor_update_system_state_str_ops dbus).1
        = (_monitor_update_system_state_str dbus monitor).2
    ∧ (_monitor_update_system_state_str_ops dbus).2.count (DBusOp.unref res)
        = (_monitor_update_system_state_str_ops dbus).2.count (DBusOp.get res)
    ∧ (_monitor_update_system_state_str_ops dbus).2.count (DBusOp.get res) ≤ 1
    ∧ ((_monitor_update_system_state_str_ops dbus).2.indexOf (DBusOp.get res)
        ≤ (_monitor_update_system_state_str_ops dbus).2.indexOf (DBusOp.unref res))
    ∧ (DBusOp.get DBusRes.bus ∈ (_monitor_update_system_state_str_ops dbus).2
        ↔ dbus.bus = true)
    ∧ (DBusOp.get DBusRes.msg ∈ (_monitor_update_system_state_str_ops dbus).2
        ↔ (dbus.bus = true ∧ dbus.msg = true))
    ∧ (DBusOp.get DBusRes.reply ∈ (_monitor_update_system_state_str_ops dbus).2
        ↔ (dbus.bus = true ∧ dbus.msg = true ∧ dbus.args = true ∧ dbus.reply ≠ none)) := by
  refine ⟨ops_rval dbus monitor, ?_⟩
  rcases ops_cases dbus with ⟨hb, h⟩ | ⟨hb, hm, h⟩ | ⟨hb, hm, ha, h⟩ | ⟨hb, hm, ha, hr, h⟩
  · rw [h]
    cases res <;> simp [hb]
  · rw [h]
    cases res <;> simp [hb, hm]
  · rw [h]
    have hnot : ¬ (dbus.args = true ∧ dbus.reply ≠ none) := by
      rcases ha with ha | ha
      · simp [ha]
      · simp [ha]
    cases res <;> simp [hb, hm, hnot]
  · rw [h]
    cases res <;> simp [hb, hm, ha, hr]

/-! ## The callback field -/

theorem dispatch_cb {W : Type} (dbus : DBusCall) (monitor : Monitor W) (world : W) :
    (monitor_run_dispatch dbus monitor world).1.on_system_state_change
      = monitor.on_system_state_change := by
  rw [dispatch_fst, update_cb]

theorem trace_cb {W : Type} (ticks : List Tick) :
    ∀ (monitor : Monitor W) (world : W),
      ∀ p ∈ monitor_run_trace ticks monitor world,
        p.1.on_system_state_change = monitor.on_system_state_change := by
  induction ticks with
  | nil => intro monitor world p hp; simp [monitor_run_trace] at hp
  | cons tick ticks ih =>
    intro monitor world p hp
    have hstep : ∀ q ∈ monitor_run_trace ticks (monitor_run_dispatch tick.dbus monitor world).1
        (monitor_run_dispatch tick.dbus monitor world).2,
        q.1.on_system_state_change = monitor.on_system_state_change := by
      intro q hq
      rw [ih _ _ q hq, dispatch_cb]
    simp only [monitor_run_trace] at hp
    split_ifs at hp
    · rw [List.mem_singleton] at hp
      rw [hp]
      exact dispatch_cb _ _ _
    · rcases List.mem_cons.1 hp with h | h
      · rw [h]; exact dispatch_cb _ _ _
      · exact hstep p h
    · rcases List.mem_cons.1 hp with h | h
      · rw [h]; exact dispatch_cb _ _ _
      · exact hstep p h

theorem run_cb {W : Type} (ticks : List Tick) :
    ∀ (monitor : Monitor W) (world : W),
      (monitor_run ticks monitor world).1.on_system_state_change
        = monitor.on_system_state_change := by
  induction ticks with
  | nil => intro monitor world; rfl
  | cons tick ticks ih =>
    intro monitor world
    simp only [monitor_run]
    split_ifs
    · exact dispatch_cb _ _ _
    · rw [ih, dispatch_cb]
    · rw [ih, dispatch_cb]

/-- C17: the field `on_system_state_change` is left as it was by
`_monitor_update_system_state_str`, by `_monitor_parse_system_state`, by
`monitor_update_system_state`, by each iteration of `monitor_run` and by the
whole run, for every fetch and every sleep result; and
`monitor_register_on_system_state_change_cb` sets that field to its argument
and leaves the text and the two states as they were. -/
theorem C17_callback_field_unchanged {W : Type} (dbus : DBusCall) (ticks : List Tick)
    (monitor : Monitor W) (world : W) (cb : Option (Nat → Nat → W → W)) :
    (_monitor_update_system_state_str dbus monitor).1.on_system_state_change
        = monitor.on_system_state_change
    ∧ (_monitor_parse_system_state monitor).on_system_state_change
        = monitor.on_system_state_change
    ∧ (monitor_update_system_state dbus monitor).1.on_system_state_change
        = monitor.on_system_state_change
    ∧ (monitor_run_dispatch dbus monitor world).1.on_system_state_change
        = monitor.on_system_state_change
    ∧ (∀ p ∈ monitor_run_trace ticks monitor world,
        p.1.on_system_state_change = monitor.on_system_state_change)
    ∧ (monitor_run ticks monitor world).1.on_system_state_change
        = monitor.on_system_state_change
    ∧ (monitor_register_on_system_state_change_cb monitor cb).on_system_state_change = cb
    ∧ (monitor_register_on_system_state_change_cb monitor cb).system_state_str
        = monitor.system_state_str
    ∧ (monitor_register_on_system_state_change_cb monitor cb).system_state
        = monitor.system_state
    ∧ (monitor_register_on_system_state_change_cb monitor cb).system_state_old
        = monitor.system_state_old :=
  ⟨(fetch_fields dbus monitor).2.2, (parse_fields monitor).2.2, update_cb dbus monitor,
    dispatch_cb dbus monitor world, trace_cb ticks monitor world, run_cb ticks monitor world,
    rfl, rfl, rfl, rfl⟩

/-! ## The states that are reached -/

theorem update_state_canonical {W : Type} (dbus : DBusCall) (monitor : Monitor W) :
    (monitor_update_system_state dbus monitor).1.system_state ∈ canonical_states := by
  simp only [monitor_update_system_state]
  exact parse_state_canonical _

theorem update_all_canonical {W : Type} (calls : List DBusCall) :
    ∀ monitor : Monitor W,
      monitor.system_state ∈ canonical_states → monitor.system_state_old ∈ canonical_states →
      (update_all calls monitor).system_state ∈ canonical_states
      ∧ (update_all calls monitor).system_state_old ∈ canonical_states := by
  induction calls with
  | nil => intro monitor h1 h2; exact ⟨h1, h2⟩
  | cons dbus calls ih =>
    intro monitor h1 _
    have := ih (monitor_update_system_state dbus monitor).1 (update_state_canonical dbus monitor)
      (by rw [update_old]; exact h1)
    simpa [update_all] using this

theorem run_calls_canonical (ticks : List Tick) :
    ∀ (monitor : Monitor (List (Nat × Nat))) (calls : List (Nat × Nat)),
      monitor.on_system_state_change = some record_call →
      monitor.system_state ∈ canonical_states →
      (∀ p ∈ calls, p.1 ∈ canonical_states ∧ p.2 ∈ canonical_states) →
      ∀ p ∈ (monitor_run ticks monitor calls).2,
        p.1 ∈ canonical_states ∧ p.2 ∈ canonical_states := by
  induction ticks with
  | nil => intro monitor calls _ _ h; exact h
  | cons tick ticks ih =>
    intro monitor calls hcb hs hcalls
    have hcb1 : (monitor_run_dispatch tick.dbus monitor calls).1.on_system_state_change
        = some record_call := by
      rw [dispatch_cb, hcb]
    have hs1 : (monitor_run_dispatch tick.dbus monitor calls).1.system_state
        ∈ canonical_states := by
      rw [dispatch_fst]; exact update_state_canonical _ _
    have hcalls1 : ∀ p ∈ (monitor_run_dispatch tick.dbus monitor calls).2,
        p.1 ∈ canonical_states ∧ p.2 ∈ canonical_states := by
      intro p hp
      rw [dispatch_snd_some tick.dbus monitor calls record_call hcb] at hp
      split_ifs at hp
      · rcases List.mem_append.1 hp with h | h
        · exact hcalls p h
        · rw [List.mem_singleton] at h
          rw [h]
          exact ⟨update_state_canonical _ _, hs⟩
      · exact hcalls p hp
    simp only [monitor_run]
    split_ifs
    · exact hcalls1
    · exact ih _ _ hcb1 hs1 hcalls1
    · exact ih _ _ hcb1 hs1 hcalls1

/-- C18: in every state reached from `monitor_new` (with any callback
registered) by calls of `monitor_update_system_state` with any fetches, both
`system_state` and `system_state_old` are among the six state codes u, s, r,
m, d, t, which are pairwise distinct; and every call that the recording
callback receives in a run of `monitor_run` from a new monitor has two of
these codes as its arguments. -/
theorem C18_reachable_states_canonical {W : Type} (calls : List DBusCall) (ticks : List Tick)
    (cb : Option (Nat → Nat → W → W)) :
    (update_all calls
        (monitor_register_on_system_state_change_cb (monitor_new W) cb)).system_state
      ∈ canonical_states
    ∧ (update_all calls
        (monitor_register_on_system_state_change_cb (monitor_new W) cb)).system_state_old
      ∈ canonical_states
    ∧ canonical_states = ['u'.toNat, 's'.toNat, 'r'.toNat, 'm'.toNat, 'd'.toNat, 't'.toNat]
    ∧ canonical_states.Nodup
    ∧ (∀ p ∈ (monitor_run ticks
          (monitor_register_on_system_state_change_cb (monitor_new (List (Nat × Nat)))
            (some record_call)) []).2,
        p.1 ∈ canonical_states ∧ p.2 ∈ canonical_states) := by
  have hnew : SYSTEM_STATE_UNKNOWN ∈ canonical_states := by decide
  have h := update_all_canonical calls
    (monitor_register_on_system_state_change_cb (monitor_new W) cb) hnew hnew
  refine ⟨h.1, h.2, rfl, by decide, ?_⟩
  exact run_calls_canonical ticks _ [] rfl hnew (by simp)

end MonitorState
